import Mathlib

/-!  Shallow embedding of the core logic of `src/index.tsx` (the
`MediaDownloader` component): provider-response normalization, the bounded
deduplicated history store, format selection, and the simulated download
state machine.  JS numbers are modelled as rationals, JS `undefined` for
strings as `Option.none`, and JS string truthiness via `isFalsy`. -/

/-- Mirrors the `VideoMetadata` interface (src/index.tsx lines 22-29); the
normalization step always fills every field, so all fields are total here. -/
structure VideoMetadata where
  title : String
  thumbnail : String
  duration : String
  author : String
  videoQualities : List String
  audioFormats : List String
  deriving DecidableEq

/-- Mirrors the `HistoryItem` interface (lines 31-36). -/
structure HistoryItem where
  id : String
  url : String
  title : String
  timestamp : Nat
  deriving DecidableEq

/-- Raw provider payload after `JSON.parse` (line 95): every field may be
absent.  `none` models an absent or null JSON field, `some` a present one
(including an explicitly empty array, which is truthy in JS). -/
structure ProviderData where
  title : Option String
  author : Option String
  duration : Option String
  thumbnail_url : Option String
  video_qualities : Option (List String)
  audio_formats : Option (List String)
  deriving DecidableEq

/-- JS `String.prototype.trim`: strip leading and trailing whitespace
(structural implementation so that it evaluates by kernel reduction). -/
def jsTrim (s : String) : String :=
  ⟨((s.data.dropWhile Char.isWhitespace).reverse.dropWhile Char.isWhitespace).reverse⟩

/-- JS `a || b` for a string that may be `undefined` (`none`); the empty
string is falsy in JS, so it also falls through to `b`. -/
def jsOrStr (a : Option String) (b : String) : String :=
  match a with
  | none => b
  | some s => if s = "" then b else s

/-- JS `a || b` where both operands may be `undefined`. -/
def jsOr (a b : Option String) : Option String :=
  match a with
  | none => b
  | some s => if s = "" then b else some s

/-- The fixed default video-quality list (line 102). -/
def defaultVideoQualities : List String :=
  ["360p (SD)", "720p (HD)", "1080p (Full HD)"]

/-- The fixed default audio-format list (line 103). -/
def defaultAudioFormats : List String :=
  ["MP3 128kbps", "MP3 320kbps", "AAC (Original)"]

/-- The placeholder thumbnail (line 100). -/
def defaultThumbnail : String :=
  "https://images.unsplash.com/photo-1611162617474-5b21e879e113?auto=format&fit=crop&q=80&w=300&h=200"

/-- Field-by-field normalization of the parsed payload (lines 97-104); each
JS `||` default is applied independently.  Note that for the two lists the
fallback fires only when the field is absent: a present empty array is
truthy in JS and is kept as-is. -/
def normalizeResponse (d : ProviderData) : VideoMetadata where
  title := jsOrStr d.title "Unknown Media Content"
  author := jsOrStr d.author "Content Creator"
  thumbnail := jsOrStr d.thumbnail_url defaultThumbnail
  duration := jsOrStr d.duration "N/A"
  videoQualities := d.video_qualities.getD defaultVideoQualities
  audioFormats := d.audio_formats.getD defaultAudioFormats

/-- Line 107: `videoInfo.videoQualities[1] || videoInfo.videoQualities[0]`;
out-of-range indexing yields `undefined` (`none`). -/
def defaultSelection (vq : List String) : Option String :=
  jsOr (vq.get? 1) (vq.get? 0)

/-- JS falsiness of the `selectedFormat` state value: `undefined` or `""`. -/
def isFalsy : Option String → Bool
  | none => true
  | some s => s == ""

/-- The component state (the `useState` hooks, lines 39-47) plus the timer
bookkeeping of the simulated download: `timerOn` models the live
`setInterval` of line 123, `settling` the pending 500 ms `setTimeout` of
line 127, and `completedCount` counts fired completion alerts (line 130). -/
structure AppState where
  url : String
  loading : Bool
  metadata : Option VideoMetadata
  selectedFormat : Option String
  downloading : Bool
  progress : ℚ
  timerOn : Bool
  settling : Bool
  completedCount : Nat
  history : List HistoryItem
  error : Option String
  deriving DecidableEq

/-- The initial hook values (lines 39-47). -/
def initState : AppState where
  url := ""
  loading := false
  metadata := none
  selectedFormat := some ""
  downloading := false
  progress := 0
  timerOn := false
  settling := false
  completedCount := 0
  history := []
  error := none

/-- Lines 57-67: prepend a fresh item, drop any older item with the same
url, keep the first 20 (`slice(0, 20)`).  The `Math.random()`-generated id
and `Date.now()` timestamp are supplied inside `it`. -/
def saveToHistory (h : List HistoryItem) (it : HistoryItem) : List HistoryItem :=
  (it :: h.filter (fun e => e.url != it.url)).take 20

/-- Outcome of the provider call plus `JSON.parse` of its text (lines
84-95): `failure` covers a thrown request or an unparsable body, `success d`
a parsed payload.  An empty body parses to the all-absent payload. -/
inductive ProviderOutcome where
  | failure
  | success (d : ProviderData)
  deriving DecidableEq

/-- Lines 74-115.  The early return on a blank url (lines 75-78) touches
only `error`; otherwise `metadata` is cleared up front (line 81) and either
the normalized record is installed, the selection reseeded and the history
written (lines 106-108), or the catch block records the fetch error message
(line 111); `finally` drops `loading` (line 113).  The download state is
never consulted.  `freshId` and `now` stand for the generated id and
`Date.now()` used by `saveToHistory`. -/
def fetchQualities (st : AppState) (outcome : ProviderOutcome)
    (freshId : String) (now : Nat) : AppState :=
  if jsTrim st.url = "" then
    { st with error := some "Please paste a valid media link first." }
  else
    match outcome with
    | .failure =>
        { st with loading := false, metadata := none,
                  error := some "Could not fetch media info. Please check the URL and try again." }
    | .success d =>
        let vi := normalizeResponse d
        { st with loading := false, metadata := some vi, error := none,
                  selectedFormat := defaultSelection vi.videoQualities,
                  history := saveToHistory st.history ⟨freshId, st.url, vi.title, now⟩ }

/-- Lines 239 and 263: every rendered format button simply assigns its
label via `setSelectedFormat`; there is no validation step anywhere. -/
def selectFormat (label : String) (st : AppState) : AppState :=
  { st with selectedFormat := some label }

/-- Lines 117-122: a falsy `selectedFormat` silently returns; otherwise the
download starts unconditionally (`downloading := true`, `progress := 0`, a
fresh interval).  Whether a download is already running is never checked. -/
def startDownload (st : AppState) : AppState :=
  if isFalsy st.selectedFormat then st
  else { st with downloading := true, progress := 0, timerOn := true }

/-- One interval callback (lines 123-136) with the `Math.random()` sample
passed in as `r`: when the previous progress already reached 100 the
interval is cleared, progress pinned to 100 and the settle timeout
scheduled; otherwise the raw, unclamped increment `r * 15` is added. -/
def tick (r : ℚ) (st : AppState) : AppState :=
  if st.timerOn then
    if 100 ≤ st.progress then
      { st with progress := 100, timerOn := false, settling := true }
    else
      { st with progress := st.progress + r * 15 }
  else st

/-- The 500 ms settle timeout body (lines 127-131): stop downloading, reset
progress to 0, fire the completion alert. -/
def settle (st : AppState) : AppState :=
  if st.settling then
    { st with settling := false, downloading := false, progress := 0,
              completedCount := st.completedCount + 1 }
  else st

/-- `runTicks r n st` applies the first `n` interval callbacks, callback `k`
drawing the random sample `r k`. -/
def runTicks (r : ℕ → ℚ) : ℕ → AppState → AppState
  | 0, st => st
  | n + 1, st => tick (r n) (runTicks r n st)

/-- Persisted `localStorage` content under the history key: absent, present
but not valid JSON for a history array, or a well-formed entry array. -/
inductive StoredHistory where
  | absent
  | unparsable (raw : String)
  | parsed (entries : List HistoryItem)
  deriving DecidableEq

/-- Lines 50-55: a missing stored value is skipped by `if (savedHistory)`,
leaving the initial empty history; a present value goes straight through
`JSON.parse`, which throws on unparsable input — modelled as
`Except.error`, since no catch surrounds it. -/
def loadHistory : StoredHistory → Except String (List HistoryItem)
  | .absent => .ok []
  | .unparsable raw => .error raw
  | .parsed es => .ok es

/-- The History Store invariant: pairwise-distinct urls, at most 20
entries, strictly descending timestamps (most recent write first). -/
def histInv (h : List HistoryItem) : Prop :=
  h.Pairwise (fun a b => a.url ≠ b.url) ∧ h.length ≤ 20 ∧
    h.Pairwise (fun a b => b.timestamp < a.timestamp)

/-- Apply a sequence of `saveToHistory` calls in order. -/
def runSaves : List HistoryItem → List HistoryItem → List HistoryItem
  | h, [] => h
  | h, it :: its => runSaves (saveToHistory h it) its

/-- Each successive item carries a strictly fresher timestamp than
everything already stored (`Date.now()` advancing across calls). -/
def freshTimes : List HistoryItem → List HistoryItem → Prop
  | _, [] => True
  | h, it :: its =>
      (∀ e ∈ h, e.timestamp < it.timestamp) ∧ freshTimes (saveToHistory h it) its

/-- A state holding a selectable format, as left behind by a successful
resolution (`selectedFormat` is truthy). -/
def readyState : AppState := { initState with selectedFormat := some "720p (HD)" }

/-- The literal value of `startDownload readyState`, spelled out so that
concrete runs normalize by `simp`. -/
def startedLit : AppState :=
  { url := "", loading := false, metadata := none, selectedFormat := some "720p (HD)",
    downloading := true, progress := 0, timerOn := true, settling := false,
    completedCount := 0, history := [], error := none }

/-- A stream of `Math.random()` samples that always returns 0.99. -/
def rNinetyNine : ℕ → ℚ := fun _ => 99 / 100

/-- A stream of `Math.random()` samples that always returns 0.5. -/
def rHalf : ℕ → ℚ := fun _ => 1 / 2

/-- A sample resolved record with three video qualities and one audio
format. -/
def demoMeta : VideoMetadata :=
  { title := "Demo", thumbnail := defaultThumbnail, duration := "N/A",
    author := "Content Creator", videoQualities := ["360p", "720p", "1080p"],
    audioFormats := ["MP3"] }

/-- A provider payload carrying only a title, as in the example scenario of
the specification. -/
def demoResponse : ProviderData :=
  { title := some "Demo", author := none, duration := none, thumbnail_url := none,
    video_qualities := none, audio_formats := none }

/-- A provider payload whose `video_qualities` is an explicitly empty array
(truthy in JS, so the default is not applied). -/
def emptyListResponse : ProviderData :=
  { title := some "Demo", author := none, duration := none, thumbnail_url := none,
    video_qualities := some [], audio_formats := some ["MP3 128kbps"] }

/-- A fresh session with a non-blank url entered. -/
def goodState : AppState := { initState with url := "https://example.com/v1" }

/-- A session showing `demoMeta` with `720p` selected. -/
def selState : AppState :=
  { initState with metadata := some demoMeta, selectedFormat := some "720p" }

/-- A session in the middle of a download (`downloading = true`,
`progress = 50`) with a format selected. -/
def busyState : AppState :=
  { initState with selectedFormat := some "720p (HD)", downloading := true,
                   progress := 50, timerOn := true }

/-- A session in the middle of a download with a non-blank url entered, as
when the user triggers a new resolution while a download runs. -/
def downloadingState : AppState :=
  { initState with url := "https://example.com/v1", metadata := some demoMeta,
                   selectedFormat := some "720p", downloading := true, progress := 50,
                   timerOn := true }

/-- A session displaying a record while the url field holds only
whitespace, with one prior history entry. -/
def blankState : AppState :=
  { initState with url := "   ", metadata := some demoMeta,
                   history := [⟨"h1", "u", "t", 1⟩] }

/-- Sanity link between the start operation and the literal started
state. -/
theorem started_eq : startDownload readyState = startedLit := rfl

/-- Zero interval callbacks leave the state unchanged. -/
theorem runTicks_zero (r : ℕ → ℚ) (st : AppState) : runTicks r 0 st = st := rfl

/-- Unfolding one interval callback. -/
theorem runTicks_succ (r : ℕ → ℚ) (n : ℕ) (st : AppState) :
    runTicks r (n + 1) st = tick (r n) (runTicks r n st) := rfl

/-- A callback after `clearInterval` is a no-op. -/
theorem tick_of_not_timer {st : AppState} (h : st.timerOn = false) (r : ℚ) : tick r st = st := by
  simp [tick, h]

/-- A callback observing progress at or above 100 pins it to 100, clears
the interval and schedules the settle timeout. -/
theorem tick_of_ge {st : AppState} (h : st.timerOn = true) (hp : 100 ≤ st.progress) (r : ℚ) :
    tick r st = { st with progress := 100, timerOn := false, settling := true } := by
  simp [tick, h, hp]

/-- A callback below 100 adds the raw increment `r * 15`. -/
theorem tick_of_lt {st : AppState} (h : st.timerOn = true) (hp : ¬ 100 ≤ st.progress) (r : ℚ) :
    tick r st = { st with progress := st.progress + r * 15 } := by
  simp [tick, h, hp]

/-- The settle timeout, when pending, ends the download and resets
progress. -/
theorem settle_of_true {st : AppState} (h : st.settling = true) :
    settle st = { st with settling := false, downloading := false, progress := 0,
                          completedCount := st.completedCount + 1 } := by
  simp [settle, h]

/-- With no pending settle timeout, `settle` is a no-op. -/
theorem settle_of_false {st : AppState} (h : st.settling = false) : settle st = st := by
  simp [settle, h]

/-- One `saveToHistory` call preserves the store invariant when the new
timestamp is fresher than every stored one. -/
theorem saveToHistory_inv (h : List HistoryItem) (it : HistoryItem)
    (hinv : histInv h) (hts : ∀ e ∈ h, e.timestamp < it.timestamp) :
    histInv (saveToHistory h it) := by
  obtain ⟨hurl, hlen, hord⟩ := hinv
  have hsub : List.Sublist (h.filter (fun e => e.url != it.url)) h := List.filter_sublist h
  have htake : List.Sublist ((it :: h.filter (fun e => e.url != it.url)).take 20)
      (it :: h.filter (fun e => e.url != it.url)) := List.take_sublist 20 _
  refine ⟨?_, ?_, ?_⟩
  · refine (List.pairwise_cons.mpr ⟨?_, hurl.sublist hsub⟩).sublist htake
    intro b hb
    have hb2 := (List.mem_filter.mp hb).2
    have hne : b.url ≠ it.url := by simpa using hb2
    exact fun hc => hne hc.symm
  · simp only [saveToHistory, List.length_take]
    exact min_le_left _ _
  · refine (List.pairwise_cons.mpr ⟨?_, hord.sublist hsub⟩).sublist htake
    intro b hb
    exact hts b (hsub.subset hb)

/-- The store invariant holds after every prefix of a fresh-timestamped
sequence of `saveToHistory` calls. -/
theorem runSaves_take_inv : ∀ (its h0 : List HistoryItem),
    histInv h0 → freshTimes h0 its → ∀ n : ℕ, histInv (runSaves h0 (its.take n))
  | [], h0, hinv, _, n => by simpa [runSaves] using hinv
  | it :: its, h0, hinv, hfresh, 0 => by simpa [runSaves] using hinv
  | it :: its, h0, hinv, hfresh, n + 1 => by
      have h1 := saveToHistory_inv h0 it hinv hfresh.1
      simpa [runSaves, List.take_succ_cons] using
        runSaves_take_inv its (saveToHistory h0 it) h1 hfresh.2 n

/-- Interval callbacks never touch `downloading` or the completion count,
and once the interval is cleared the progress sits at 100 with the settle
timeout pending. -/
theorem runTicks_state_inv (r : ℕ → ℚ) (st : AppState) (hT : st.timerOn = true)
    (hS : st.settling = false) (n : ℕ) :
    (runTicks r n st).downloading = st.downloading ∧
    (runTicks r n st).completedCount = st.completedCount ∧
    ((runTicks r n st).timerOn = false →
      (runTicks r n st).progress = 100 ∧ (runTicks r n st).settling = true) ∧
    ((runTicks r n st).timerOn = true → (runTicks r n st).settling = false) := by
  induction n with
  | zero =>
    rw [runTicks_zero]
    refine ⟨rfl, rfl, fun h => ?_, fun _ => hS⟩
    rw [hT] at h
    exact Bool.noConfusion h
  | succ k ih =>
    obtain ⟨ihd, ihc, ihoff, ihon⟩ := ih
    rw [runTicks_succ]
    cases hTk : (runTicks r k st).timerOn with
    | false =>
      rw [tick_of_not_timer hTk]
      exact ⟨ihd, ihc, ihoff, ihon⟩
    | true =>
      by_cases hp : 100 ≤ (runTicks r k st).progress
      · rw [tick_of_ge hTk hp]
        refine ⟨ihd, ihc, fun _ => ⟨rfl, rfl⟩, fun h => ?_⟩
        simp at h
      · rw [tick_of_lt hTk hp]
        refine ⟨ihd, ihc, fun h => ?_, fun _ => ihon hTk⟩
        simp [hTk] at h

/-- While the interval is live, progress grows by at least `3 / 2` per
callback whenever each sample satisfies `3 / 2 ≤ r i * 15`. -/
theorem runTicks_progress_lower (r : ℕ → ℚ) (hr : ∀ i, 3 / 2 ≤ r i * 15)
    (st : AppState) (h0 : st.progress = 0) (n : ℕ) :
    (3 / 2 : ℚ) * n ≤ (runTicks r n st).progress ∨ (runTicks r n st).timerOn = false := by
  induction n with
  | zero =>
    left
    rw [runTicks_zero, h0]
    norm_num
  | succ k ih =>
    rw [runTicks_succ]
    cases hTk : (runTicks r k st).timerOn with
    | false =>
      right
      rw [tick_of_not_timer hTk]
      exact hTk
    | true =>
      by_cases hp : 100 ≤ (runTicks r k st).progress
      · right
        rw [tick_of_ge hTk hp]
      · left
        rcases ih with ih | ih
        · rw [tick_of_lt hTk hp]
          show (3 / 2 : ℚ) * ((k : ℕ) + 1 : ℕ) ≤ (runTicks r k st).progress + r k * 15
          push_cast
          have := hr k
          linarith
        · rw [ih] at hTk
          exact Bool.noConfusion hTk

/-- Claim C1 (corrected): each absent provider field independently falls
back to its fixed 3-element default list, but a provider response carrying
an explicitly empty array is kept as-is, so a successful resolution is not
guaranteed non-empty format lists. -/
theorem normalizeResponse_field_defaults (d : ProviderData) :
    (d.video_qualities = none → (normalizeResponse d).videoQualities = defaultVideoQualities) ∧
    (∀ l, d.video_qualities = some l → (normalizeResponse d).videoQualities = l) ∧
    (d.audio_formats = none → (normalizeResponse d).audioFormats = defaultAudioFormats) ∧
    (∀ l, d.audio_formats = some l → (normalizeResponse d).audioFormats = l) ∧
    defaultVideoQualities.length = 3 ∧ defaultAudioFormats.length = 3 := by
  refine ⟨fun h => by simp [normalizeResponse, h], fun l h => by simp [normalizeResponse, h],
    fun h => by simp [normalizeResponse, h], fun l h => by simp [normalizeResponse, h], rfl, rfl⟩

/-- Witness for C1: the title-only payload gets the default list, while the
explicit empty array survives normalization. -/
theorem normalizeResponse_field_defaults_witness :
    demoResponse.video_qualities = none ∧
    (normalizeResponse demoResponse).videoQualities = defaultVideoQualities ∧
    emptyListResponse.video_qualities = some [] ∧
    (normalizeResponse emptyListResponse).videoQualities = [] :=
  ⟨rfl, (normalizeResponse_field_defaults demoResponse).1 rfl, rfl,
    (normalizeResponse_field_defaults emptyListResponse).2.1 [] rfl⟩

/-- Counterexample to C1 as stated: a resolution that succeeds (error
cleared, record installed) can leave `videoQualities` empty, because the
JS `||` fallback does not fire on a present empty array. -/
theorem emptyListResponse_breaks_nonempty_invariant :
    (fetchQualities goodState (.success emptyListResponse) "id1" 1).error = none ∧
    (fetchQualities goodState (.success emptyListResponse) "id1" 1).metadata
      = some (normalizeResponse emptyListResponse) ∧
    (normalizeResponse emptyListResponse).videoQualities = [] := by
  exact ⟨by decide, by decide, rfl⟩

/-- Claim C2 (confirmed): starting from any history satisfying the store
invariant (in particular the empty history), after every prefix of a
sequence of `saveToHistory` calls with fresh timestamps the store holds at
most one entry per url, at most 20 entries, and is ordered strictly
most-recent-write-first. -/
theorem history_invariant_preserved (h0 its : List HistoryItem)
    (hinv : histInv h0) (hfresh : freshTimes h0 its) (n : ℕ) :
    histInv (runSaves h0 (its.take n)) :=
  runSaves_take_inv its h0 hinv hfresh n

/-- Witness for C2: three concrete calls from the empty history, two of
them sharing a url. -/
theorem history_invariant_preserved_witness :
    histInv ([] : List HistoryItem) ∧
    freshTimes [] [⟨"a", "u1", "t1", 1⟩, ⟨"b", "u2", "t2", 2⟩, ⟨"c", "u1", "t3", 3⟩] ∧
    histInv (runSaves []
      (([⟨"a", "u1", "t1", 1⟩, ⟨"b", "u2", "t2", 2⟩, ⟨"c", "u1", "t3", 3⟩] : List HistoryItem).take 3)) := by
  have hinv : histInv ([] : List HistoryItem) := ⟨List.Pairwise.nil, by simp, List.Pairwise.nil⟩
  have hfresh : freshTimes [] [⟨"a", "u1", "t1", 1⟩, ⟨"b", "u2", "t2", 2⟩, ⟨"c", "u1", "t3", 3⟩] := by
    simp [freshTimes, saveToHistory]
  exact ⟨hinv, hfresh, history_invariant_preserved [] _ hinv hfresh 3⟩

/-- Claim C3 (amended): with samples in `[0, 1)` each callback below 100
adds a possibly-zero increment below 15, so progress stays in `[0, 115)`
and never decreases while below 100; a callback observing progress at or
above 100 then sets it to exactly 100 — the raw sum is not clamped within
a callback, so progress can overshoot 100 before being pinned. -/
theorem progress_bounds_amended (r : ℕ → ℚ) (hr : ∀ i, 0 ≤ r i ∧ r i < 1)
    (st : AppState) (h0 : st.progress = 0) (n : ℕ) :
    (0 ≤ (runTicks r n st).progress ∧ (runTicks r n st).progress < 115) ∧
    ((runTicks r n st).progress < 100 →
      (runTicks r n st).progress ≤ (runTicks r (n + 1) st).progress) ∧
    (100 ≤ (runTicks r n st).progress → (runTicks r n st).timerOn = true →
      (runTicks r (n + 1) st).progress = 100) := by
  have key : ∀ m : ℕ, 0 ≤ (runTicks r m st).progress ∧ (runTicks r m st).progress < 115 := by
    intro m
    induction m with
    | zero =>
      rw [runTicks_zero, h0]
      norm_num
    | succ k ih =>
      rw [runTicks_succ]
      cases hTk : (runTicks r k st).timerOn with
      | false =>
        rw [tick_of_not_timer hTk]
        exact ih
      | true =>
        by_cases hp : 100 ≤ (runTicks r k st).progress
        · rw [tick_of_ge hTk hp]
          constructor
          · show (0 : ℚ) ≤ 100
            norm_num
          · show (100 : ℚ) < 115
            norm_num
        · rw [tick_of_lt hTk hp]
          push_neg at hp
          obtain ⟨hr0, hr1⟩ := hr k
          constructor
          · show (0 : ℚ) ≤ (runTicks r k st).progress + r k * 15
            nlinarith [ih.1]
          · show (runTicks r k st).progress + r k * 15 < 115
            nlinarith
  refine ⟨key n, ?_, ?_⟩
  · intro hlt
    rw [runTicks_succ]
    cases hT : (runTicks r n st).timerOn with
    | false =>
      rw [tick_of_not_timer hT]
    | true =>
      rw [tick_of_lt hT (not_le.mpr hlt)]
      show (runTicks r n st).progress ≤ (runTicks r n st).progress + r n * 15
      nlinarith [(hr n).1]
  · intro hge hT
    rw [runTicks_succ, tick_of_ge hT hge]

/-- Witness for C3: the constant 0.5 sample stream from a freshly started
download, observed after three callbacks. -/
theorem progress_bounds_amended_witness :
    (∀ i, 0 ≤ rHalf i ∧ rHalf i < 1) ∧ (startDownload readyState).progress = 0 ∧
    ((0 ≤ (runTicks rHalf 3 (startDownload readyState)).progress ∧
      (runTicks rHalf 3 (startDownload readyState)).progress < 115) ∧
    ((runTicks rHalf 3 (startDownload readyState)).progress < 100 →
      (runTicks rHalf 3 (startDownload readyState)).progress ≤
        (runTicks rHalf (3 + 1) (startDownload readyState)).progress) ∧
    (100 ≤ (runTicks rHalf 3 (startDownload readyState)).progress →
      (runTicks rHalf 3 (startDownload readyState)).timerOn = true →
      (runTicks rHalf (3 + 1) (startDownload readyState)).progress = 100)) := by
  have hr : ∀ i, 0 ≤ rHalf i ∧ rHalf i < 1 := fun i => by norm_num [rHalf]
  exact ⟨hr, rfl, progress_bounds_amended rHalf hr (startDownload readyState) rfl 3⟩

/-- Counterexample to C3 as stated: with every sample at 0.99, after seven
callbacks progress equals 103.95, outside `[0, 100]`, so a tick result is
not clamped at 100. -/
theorem progress_exceeds_100_counterexample :
    (runTicks rNinetyNine 7 (startDownload readyState)).progress = 2079 / 20 ∧
    ¬ (runTicks rNinetyNine 7 (startDownload readyState)).progress ≤ 100 := by
  rw [started_eq]
  norm_num [runTicks, tick, startedLit, rNinetyNine]

/-- Claim C4 (amended): when every sample gives an increment of at least
1.5, a started download is pinned at progress 100 with the interval
cleared within 69 callbacks; the pending settle timeout then fires exactly
once, making the completion observable — at which point `downloading` is
false and progress has been reset to 0, not 100. -/
theorem download_completes (r : ℕ → ℚ) (hr : ∀ i, 3 / 2 ≤ r i * 15) (st : AppState)
    (hd : st.downloading = true) (h0 : st.progress = 0) (hT : st.timerOn = true)
    (hS : st.settling = false) :
    (runTicks r 69 st).progress = 100 ∧ (runTicks r 69 st).timerOn = false ∧
    (runTicks r 69 st).settling = true ∧ (runTicks r 69 st).downloading = true ∧
    (runTicks r 69 st).completedCount = st.completedCount ∧
    (settle (runTicks r 69 st)).downloading = false ∧
    (settle (runTicks r 69 st)).progress = 0 ∧
    (settle (runTicks r 69 st)).completedCount = st.completedCount + 1 ∧
    settle (settle (runTicks r 69 st)) = settle (runTicks r 69 st) := by
  obtain ⟨ihd, ihc, ihoff, ihon⟩ := runTicks_state_inv r st hT hS 69
  have hoff : (runTicks r 69 st).timerOn = false := by
    rcases runTicks_progress_lower r hr st h0 68 with hp | hoff68
    · cases hT68 : (runTicks r 68 st).timerOn with
      | false =>
        rw [show (69 : ℕ) = 68 + 1 from rfl, runTicks_succ, tick_of_not_timer hT68]
        exact hT68
      | true =>
        have hge : 100 ≤ (runTicks r 68 st).progress := by
          push_cast at hp
          linarith
        rw [show (69 : ℕ) = 68 + 1 from rfl, runTicks_succ, tick_of_ge hT68 hge]
    · rw [show (69 : ℕ) = 68 + 1 from rfl, runTicks_succ, tick_of_not_timer hoff68]
      exact hoff68
  obtain ⟨hp100, hset⟩ := ihoff hoff
  refine ⟨hp100, hoff, hset, ihd.trans hd, ihc, ?_, ?_, ?_, ?_⟩
  · rw [settle_of_true hset]
  · rw [settle_of_true hset]
  · rw [settle_of_true hset]
    show (runTicks r 69 st).completedCount + 1 = st.completedCount + 1
    rw [ihc]
  · rw [settle_of_true hset]
    exact settle_of_false rfl

/-- Witness for C4: the constant 0.99 sample stream from a freshly started
download. -/
theorem download_completes_witness :
    (∀ i, (3 : ℚ) / 2 ≤ rNinetyNine i * 15) ∧
    (startDownload readyState).downloading = true ∧
    (startDownload readyState).progress = 0 ∧
    (startDownload readyState).timerOn = true ∧
    (startDownload readyState).settling = false ∧
    ((runTicks rNinetyNine 69 (startDownload readyState)).progress = 100 ∧
     (runTicks rNinetyNine 69 (startDownload readyState)).timerOn = false ∧
     (runTicks rNinetyNine 69 (startDownload readyState)).settling = true ∧
     (runTicks rNinetyNine 69 (startDownload readyState)).downloading = true ∧
     (runTicks rNinetyNine 69 (startDownload readyState)).completedCount =
       (startDownload readyState).completedCount ∧
     (settle (runTicks rNinetyNine 69 (startDownload readyState))).downloading = false ∧
     (settle (runTicks rNinetyNine 69 (startDownload readyState))).progress = 0 ∧
     (settle (runTicks rNinetyNine 69 (startDownload readyState))).completedCount =
       (startDownload readyState).completedCount + 1 ∧
     settle (settle (runTicks rNinetyNine 69 (startDownload readyState))) =
       settle (runTicks rNinetyNine 69 (startDownload readyState))) := by
  have hr : ∀ i, (3 : ℚ) / 2 ≤ rNinetyNine i * 15 := fun i => by norm_num [rNinetyNine]
  exact ⟨hr, rfl, rfl, rfl, rfl,
    download_completes rNinetyNine hr (startDownload readyState) rfl rfl rfl rfl⟩

/-- Counterexample to C4 as stated: running the concrete 0.99 stream to
completion, the settle timeout makes completion observable with progress
reset to 0 rather than pinned at 100. -/
theorem completion_observable_progress_zero :
    (settle (runTicks rNinetyNine 8 (startDownload readyState))).completedCount = 1 ∧
    (settle (runTicks rNinetyNine 8 (startDownload readyState))).downloading = false ∧
    (settle (runTicks rNinetyNine 8 (startDownload readyState))).progress = 0 ∧
    ¬ (settle (runTicks rNinetyNine 8 (startDownload readyState))).progress = 100 := by
  rw [started_eq]
  norm_num [runTicks, tick, settle, startedLit, rNinetyNine]

/-- Claim C5 (amended): the select operation assigns its label to
`selectedFormat` unconditionally for every label — no validation against
the current record and no failure path exist; only the rendered buttons
(one per entry of the two format lists) restrict what can be selected. -/
theorem selectFormat_unconditional (st : AppState) (label : String) :
    selectFormat label st = { st with selectedFormat := some label } := rfl

/-- Counterexample to C5 as stated: selecting `4K`, which is in neither
format list of the current record, succeeds and overwrites the selection
instead of failing and leaving it unchanged. -/
theorem selectFormat_no_validation_counterexample :
    ("4K" ∉ demoMeta.videoQualities ++ demoMeta.audioFormats) ∧
    (selectFormat "4K" selState).selectedFormat = some "4K" ∧
    (selectFormat "4K" selState).selectedFormat ≠ selState.selectedFormat := by
  exact ⟨by decide, rfl, by decide⟩

/-- Claim C6 (amended): with a falsy selection, starting a download is a
silent no-op (no error value is produced); with a truthy selection it
starts unconditionally — even while a download is already running —
setting `downloading` and resetting `progress` to 0. -/
theorem startDownload_guard_behavior (st : AppState) :
    (isFalsy st.selectedFormat = true → startDownload st = st) ∧
    (isFalsy st.selectedFormat = false →
      startDownload st = { st with downloading := true, progress := 0, timerOn := true }) := by
  constructor
  · intro h
    simp [startDownload, h]
  · intro h
    simp [startDownload, h]

/-- Witness for C6: the empty-selection initial state is left unchanged,
and a state with a selection starts the download. -/
theorem startDownload_guard_behavior_witness :
    (isFalsy initState.selectedFormat = true ∧ startDownload initState = initState) ∧
    (isFalsy selState.selectedFormat = false ∧
      startDownload selState = { selState with downloading := true, progress := 0, timerOn := true }) :=
  ⟨⟨rfl, (startDownload_guard_behavior initState).1 rfl⟩,
   ⟨rfl, (startDownload_guard_behavior selState).2 rfl⟩⟩

/-- Counterexample to C6 as stated: invoking the start operation while a
download is running (progress 50) does not leave the task unchanged — it
resets progress to 0 — and produces no error. -/
theorem startDownload_while_running_changes_state :
    busyState.downloading = true ∧ busyState.progress = 50 ∧
    (startDownload busyState).progress = 0 ∧ startDownload busyState ≠ busyState := by
  refine ⟨rfl, rfl, rfl, fun h => ?_⟩
  have h0 : (startDownload busyState).progress = 0 := rfl
  rw [h] at h0
  norm_num [busyState, initState] at h0

/-- Claim C7 (amended): the resolution operation never consults the
download state — its result is the same whatever the value of
`downloading`, with that flag carried through unchanged; no busy check or
error exists. -/
theorem fetchQualities_ignores_downloading (st : AppState) (o : ProviderOutcome)
    (freshId : String) (now : Nat) (b : Bool) :
    fetchQualities { st with downloading := b } o freshId now
      = { fetchQualities st o freshId now with downloading := b } := by
  obtain ⟨u, lo, md, sf, dl, pr, tm, se, cc, hi, er⟩ := st
  by_cases h : jsTrim u = ""
  · cases o <;> simp [fetchQualities, h]
  · cases o <;> simp [fetchQualities, h]

/-- Counterexample to C7 as stated: resolving while a download is running
does not fail — the provider response is processed, the record is
installed and a history entry is written. -/
theorem resolve_while_downloading_proceeds :
    downloadingState.downloading = true ∧
    downloadingState.history = [] ∧
    (fetchQualities downloadingState (.success demoResponse) "id1" 7).history
      = [⟨"id1", "https://example.com/v1", "Demo", 7⟩] ∧
    (fetchQualities downloadingState (.success demoResponse) "id1" 7).error = none ∧
    (fetchQualities downloadingState (.success demoResponse) "id1" 7).metadata
      = some (normalizeResponse demoResponse) := by
  exact ⟨rfl, rfl, by decide, by decide, by decide⟩

/-- Claim C8 (amended): absent persisted data yields the empty history and
a well-formed stored array is restored, but unparsable stored data makes
the load raise (the `JSON.parse` exception propagates) instead of being
treated as no history. -/
theorem loadHistory_behavior :
    loadHistory .absent = .ok [] ∧
    (∀ es : List HistoryItem, loadHistory (.parsed es) = .ok es) ∧
    (∀ raw : String, loadHistory (.unparsable raw) = .error raw) :=
  ⟨rfl, fun _ => rfl, fun _ => rfl⟩

/-- Counterexample to C8 as stated: corrupt persisted data raises rather
than loading as the empty history. -/
theorem corrupt_history_raises :
    loadHistory (.unparsable "not json") = .error "not json" ∧
    loadHistory (.unparsable "not json") ≠ .ok [] :=
  ⟨rfl, fun h => Except.noConfusion h⟩

/-- Claim C9 (amended): a resolution failing on a blank url changes only
the error message — the displayed record, the history and everything else
stay as they were; a provider or parse failure clears the record and sets
the error message, leaving the history and the selection untouched. -/
theorem fetchQualities_failure_frame (st : AppState) (freshId : String) (now : Nat) :
    (jsTrim st.url = "" → ∀ o : ProviderOutcome, fetchQualities st o freshId now
      = { st with error := some "Please paste a valid media link first." }) ∧
    (jsTrim st.url ≠ "" → fetchQualities st .failure freshId now
      = { st with loading := false, metadata := none,
                  error := some "Could not fetch media info. Please check the URL and try again." }) := by
  constructor
  · intro h o
    simp [fetchQualities, h]
  · intro h
    simp [fetchQualities, h]

/-- Witness for C9: the whitespace-url state and the mid-download state
with a real url. -/
theorem fetchQualities_failure_frame_witness :
    (jsTrim blankState.url = "" ∧ fetchQualities blankState .failure "x" 0
      = { blankState with error := some "Please paste a valid media link first." }) ∧
    (jsTrim downloadingState.url ≠ "" ∧ fetchQualities downloadingState .failure "x" 0
      = { downloadingState with loading := false, metadata := none,
                                error := some "Could not fetch media info. Please check the URL and try again." }) :=
  ⟨⟨by decide, (fetchQualities_failure_frame blankState "x" 0).1 (by decide) .failure⟩,
   ⟨by decide, (fetchQualities_failure_frame downloadingState "x" 0).2 (by decide)⟩⟩

/-- Counterexample to C9 as stated: a failing resolution with a
whitespace-only url leaves the previously displayed record in place (it is
not cleared), while the error is surfaced and the history is untouched. -/
theorem whitespace_url_keeps_record :
    (fetchQualities blankState .failure "x" 5).metadata = some demoMeta ∧
    (fetchQualities blankState .failure "x" 5).metadata ≠ none ∧
    (fetchQualities blankState .failure "x" 5).error = some "Please paste a valid media link first." ∧
    (fetchQualities blankState .failure "x" 5).history = blankState.history := by
  exact ⟨by decide, by decide, by decide, by decide⟩

/-- Claim C10 (amended): a successful resolution resets the selection to
`videoQualities[1] || videoQualities[0]`: the second video quality when it
exists (and is non-empty), else the first, else undefined — the audio
formats are never consulted. -/
theorem selection_reset_rule (st : AppState) (d : ProviderData) (freshId : String) (now : Nat)
    (h : jsTrim st.url ≠ "") :
    (fetchQualities st (.success d) freshId now).selectedFormat
      = defaultSelection (normalizeResponse d).videoQualities ∧
    (∀ vq : List String, vq = [] → defaultSelection vq = none) ∧
    (∀ s : String, ∀ vq : List String, vq.get? 1 = some s → s ≠ "" →
      defaultSelection vq = some s) ∧
    (∀ vq : List String, vq.get? 1 = none → defaultSelection vq = vq.get? 0) := by
  refine ⟨by simp [fetchQualities, h], fun vq hvq => by simp [hvq, defaultSelection, jsOr],
    fun s vq h1 hs => ?_, fun vq h1 => ?_⟩
  · unfold defaultSelection jsOr
    rw [h1]
    simp [hs]
  · unfold defaultSelection jsOr
    rw [h1]

/-- Witness for C10: a successful resolution of the empty-array payload
reseeds the selection per the JS expression. -/
theorem selection_reset_rule_witness :
    jsTrim goodState.url ≠ "" ∧
    (fetchQualities goodState (.success emptyListResponse) "id1" 1).selectedFormat
      = defaultSelection (normalizeResponse emptyListResponse).videoQualities :=
  ⟨by decide, (selection_reset_rule goodState emptyListResponse "id1" 1 (by decide)).1⟩

/-- Counterexample to C10 as stated: with empty `videoQualities` and a
non-empty `audioFormats`, the installed selection is undefined rather than
the first audio format. -/
theorem empty_qualities_selection_not_audio :
    (normalizeResponse emptyListResponse).videoQualities = [] ∧
    (normalizeResponse emptyListResponse).audioFormats = ["MP3 128kbps"] ∧
    (fetchQualities goodState (.success emptyListResponse) "id1" 1).selectedFormat = none ∧
    (fetchQualities goodState (.success emptyListResponse) "id1" 1).selectedFormat
      ≠ some "MP3 128kbps" := by
  exact ⟨rfl, rfl, by decide, by decide⟩
